import Mathlib

/-!
Shallow embedding of the Twilio negotiation desktop console
(src/desktop/src/config.rs, client.rs, main.rs).

Modelling conventions:
- Rust f64 values are embedded as exact rationals; every arithmetic step
  appearing in the verified concrete examples is exact in IEEE f64 (the
  products with 100.0 round to the same integers), so the rational model
  coincides with the machine computation there.
- JSON documents are an inductive type; serde derived deserialization is
  modelled field-by-field: a required field is read when it occurs exactly
  once in the object (serde errors on duplicate known fields), unknown
  fields are ignored, and a missing or type-mismatched field aborts the
  whole decode.
- The process environment is a function from variable names to
  an optional value; the network is a function from requests to either a
  transport error or a JSON response body.
- Terminal styling from the colored crate is modelled as the ANSI escape
  sequences it emits when colors are enabled.
-/

/-- JSON values, as produced by parsing a response body. An object is a
finite sequence of key-value entries in document order. -/
inductive Json where
  | null : Json
  | bool (b : Bool) : Json
  | num (q : ℚ) : Json
  | str (s : String) : Json
  | arr (xs : List Json) : Json
  | obj (entries : List (String × Json)) : Json

/-- Read a required field from a JSON object, as serde derived
deserialization does: exactly one occurrence of the key yields its value;
zero occurrences is a missing field and two or more is a duplicate-field
error, both returning none. -/
def getField (entries : List (String × Json)) (k : String) : Option Json :=
  match entries.filter (fun e => e.1 == k) with
  | [e] => some e.2
  | _ => none

/-- serde deserialization of a JSON value into a Rust String. -/
def Json.asStr : Json → Option String
  | .str s => some s
  | _ => none

/-- serde deserialization of a JSON value into a Rust f64 (any JSON number
is accepted; the rational carries its exact value). -/
def Json.asF64 : Json → Option ℚ
  | .num q => some q
  | _ => none

/-- serde deserialization of a JSON value into a Rust bool. -/
def Json.asBool : Json → Option Bool
  | .bool b => some b
  | _ => none

/-- serde deserialization of a JSON value into a Rust i64: the number must
be an integer within the signed 64-bit range. -/
def Json.asI64 : Json → Option Int
  | .num q =>
      if q.den = 1 ∧ -(2 ^ 63) ≤ q.num ∧ q.num < 2 ^ 63 then some q.num else none
  | _ => none

/-- NegotiationPayload from src/desktop/src/client.rs (f64 fields embedded
as exact rationals). -/
structure NegotiationPayload where
  currency : String
  revenue : ℚ
  expense : ℚ
  target_margin : ℚ
  floor_margin : ℚ
  ceiling_margin : ℚ
  target_discount : ℚ
  floor_discount : ℚ
  ceiling_discount : ℚ
deriving DecidableEq

/-- HealthPayload from src/desktop/src/client.rs. -/
structure HealthPayload where
  supabase_online : Bool
  twilio_online : Bool
  cached_notifications : Int
  generated_at : String
deriving DecidableEq

/-- Derived serde deserializer for NegotiationPayload: each required field
is read from the object and converted to its Rust type; any failure aborts
the whole decode (no partial record). -/
def deserializeNegotiation : Json → Option NegotiationPayload
  | .obj entries =>
      ((getField entries "currency").bind Json.asStr).bind fun currency =>
      ((getField entries "revenue").bind Json.asF64).bind fun revenue =>
      ((getField entries "expense").bind Json.asF64).bind fun expense =>
      ((getField entries "target_margin").bind Json.asF64).bind fun target_margin =>
      ((getField entries "floor_margin").bind Json.asF64).bind fun floor_margin =>
      ((getField entries "ceiling_margin").bind Json.asF64).bind fun ceiling_margin =>
      ((getField entries "target_discount").bind Json.asF64).bind fun target_discount =>
      ((getField entries "floor_discount").bind Json.asF64).bind fun floor_discount =>
      ((getField entries "ceiling_discount").bind Json.asF64).bind fun ceiling_discount =>
      some { currency, revenue, expense, target_margin, floor_margin, ceiling_margin,
             target_discount, floor_discount, ceiling_discount }
  | _ => none

/-- Derived serde deserializer for HealthPayload. -/
def deserializeHealth : Json → Option HealthPayload
  | .obj entries =>
      ((getField entries "supabase_online").bind Json.asBool).bind fun supabase_online =>
      ((getField entries "twilio_online").bind Json.asBool).bind fun twilio_online =>
      ((getField entries "cached_notifications").bind Json.asI64).bind fun cached_notifications =>
      ((getField entries "generated_at").bind Json.asStr).bind fun generated_at =>
      some { supabase_online, twilio_online, cached_notifications, generated_at }
  | _ => none

/-- Required JSON field names of NegotiationPayload. -/
def negotiationFieldNames : List String :=
  ["currency", "revenue", "expense", "target_margin", "floor_margin", "ceiling_margin",
   "target_discount", "floor_discount", "ceiling_discount"]

/-- Required JSON field names of HealthPayload. -/
def healthFieldNames : List String :=
  ["supabase_online", "twilio_online", "cached_notifications", "generated_at"]

/-- Config from src/desktop/src/config.rs: one field, the base URL. -/
structure Config where
  base_url : String
deriving DecidableEq

/-- Config::default from src/desktop/src/config.rs: read the process
environment variable NEGOTIATION_API_BASE, falling back to the hardcoded
local default when it is absent. The environment is a lookup function. -/
def Config.default (env : String → Option String) : Config :=
  { base_url := (env "NEGOTIATION_API_BASE").getD "http://localhost:8000/api/v1" }

/-- An HTTP request as issued by reqwest in src/desktop/src/client.rs:
method, URL, plus the (empty) headers, (absent) body and (absent) auth
token that the code never sets. -/
structure HttpRequest where
  method : String
  url : String
  headers : List (String × String)
  body : Option String
  auth : Option String
deriving DecidableEq

/-- Errors surfaced by a fetch: a transport failure carrying its message,
or a JSON decode failure. -/
inductive FetchError where
  | network (msg : String) : FetchError
  | decode : FetchError
deriving DecidableEq

/-- Display text of a fetch error, as printed via anyhow. -/
def FetchError.text : FetchError → String
  | .network msg => msg
  | .decode => "error decoding response body"

/-- The network: a function from a request to a transport error or the
parsed JSON response body. -/
def Network : Type := HttpRequest → Except String Json

/-- The GET request built by NegotiationClient::negotiation. -/
def negotiationRequest (config : Config) : HttpRequest :=
  { method := "GET", url := config.base_url ++ "/negotiation",
    headers := [], body := none, auth := none }

/-- The GET request built by NegotiationClient::health. -/
def healthRequest (config : Config) : HttpRequest :=
  { method := "GET", url := config.base_url ++ "/health",
    headers := [], body := none, auth := none }

/-- NegotiationClient::negotiation from src/desktop/src/client.rs: send one
GET to base_url/negotiation, then deserialize the body as
NegotiationPayload. Returns the list of requests issued together with the
outcome. -/
def NegotiationClient.negotiation (config : Config) (net : Network) :
    List HttpRequest × Except FetchError NegotiationPayload :=
  let req := negotiationRequest config
  ([req],
    match net req with
    | .error e => .error (.network e)
    | .ok body =>
        match deserializeNegotiation body with
        | some payload => .ok payload
        | none => .error .decode)

/-- NegotiationClient::health from src/desktop/src/client.rs. -/
def NegotiationClient.health (config : Config) (net : Network) :
    List HttpRequest × Except FetchError HealthPayload :=
  let req := healthRequest config
  ([req],
    match net req with
    | .error e => .error (.network e)
    | .ok body =>
        match deserializeHealth body with
        | some payload => .ok payload
        | none => .error .decode)

/-- ANSI escape styling as emitted by the colored crate with colors
enabled: code is the SGR parameter list. -/
def ansi (code : String) (s : String) : String :=
  "\x1b[" ++ code ++ "m" ++ s ++ "\x1b[0m"

/-- status_badge from src/desktop/src/main.rs: green bold ONLINE when
active, yellow bold DEGRADED otherwise. -/
def status_badge (active : Bool) : String :=
  if active then ansi "1;32" "ONLINE" else ansi "1;33" "DEGRADED"

/-- Left-pad a fractional part below 100 to two digits. -/
def pad2 (n : Nat) : String :=
  if n < 10 then "0" ++ toString n else toString n

/-- Rust {:.2} formatting of a float value: sign, integer part, point, two
fractional digits, correctly rounded with ties to even. Computed on the
exact value through numerator and denominator: the magnitude in hundredths
is num.natAbs * 100 / den, rounded half to even by comparing twice the
remainder with the denominator. -/
def fmt2 (q : ℚ) : String :=
  let n : Nat := q.num.natAbs * 100
  let d : Nat := q.den
  let whole := n / d
  let rem := n % d
  let cents : Nat :=
    if 2 * rem < d then whole
    else if d < 2 * rem then whole + 1
    else if whole % 2 = 0 then whole else whole + 1
  (if q.num < 0 then "-" else "") ++ toString (cents / 100) ++ "." ++ pad2 (cents % 100)

/-- render_dashboard from src/desktop/src/main.rs, as the list of lines
printed to standard output, in order. -/
def renderDashboard (config : Config) (envelope : NegotiationPayload)
    (health : HealthPayload) (pretty : Bool) : List String :=
  [ansi "1;96" "Twilio Negotiation Snapshot",
   "Endpoint: " ++ ansi "4" config.base_url,
   "Currency: " ++ envelope.currency,
   "Revenue: " ++ fmt2 envelope.revenue,
   "Expense: " ++ fmt2 envelope.expense,
   "Target Margin: " ++ fmt2 (envelope.target_margin * 100) ++ "% (Floor " ++
     fmt2 (envelope.floor_margin * 100) ++ "% / Ceiling " ++
     fmt2 (envelope.ceiling_margin * 100) ++ "%)",
   "Discounts - Target " ++ fmt2 (envelope.target_discount * 100) ++ "% / Floor " ++
     fmt2 (envelope.floor_discount * 100) ++ "% / Ceiling " ++
     fmt2 (envelope.ceiling_discount * 100) ++ "%"] ++
  (if pretty then
    ["Health: Supabase " ++ status_badge health.supabase_online ++ " | Twilio " ++
       status_badge health.twilio_online ++ " | Cached Notifications " ++
       toString health.cached_notifications,
     "Last Sync: " ++ health.generated_at]
  else
    ["Health: supabase_online=" ++ toString health.supabase_online ++
       " twilio_online=" ++ toString health.twilio_online ++
       " cached_notifications=" ++ toString health.cached_notifications,
     "last_sync=" ++ health.generated_at])

/-- The red bold failure banner printed by main on any fetch failure. -/
def failureBanner : String := ansi "1;31" "Failed to fetch negotiation data"

/-- The match on the pair of fetch results in main (src/desktop/src/main.rs):
both successes render the dashboard to standard output; otherwise nothing
goes to standard output and standard error gets the banner followed by one
line per failed fetch. Result: (stdout lines, stderr lines). -/
def mainOutput (config : Config) (negRes : Except FetchError NegotiationPayload)
    (healthRes : Except FetchError HealthPayload) (pretty : Bool) :
    List String × List String :=
  match negRes, healthRes with
  | .ok envelope, .ok health => (renderDashboard config envelope health pretty, [])
  | negRes, healthRes =>
      ([],
       failureBanner ::
         ((match negRes with
           | .error err => ["Negotiation error: " ++ err.text]
           | .ok _ => []) ++
          (match healthRes with
           | .error err => ["Health error: " ++ err.text]
           | .ok _ => [])))

/-- main from src/desktop/src/main.rs after argument parsing: a failed
runtime construction propagates as the process error result; otherwise the
fetch results are reported and main returns Ok. -/
def mainProcess (runtimeRes : Except String Unit) (config : Config)
    (negRes : Except FetchError NegotiationPayload)
    (healthRes : Except FetchError HealthPayload) (pretty : Bool) :
    Except String (List String × List String) :=
  match runtimeRes with
  | .error e => .error e
  | .ok _ => .ok (mainOutput config negRes healthRes pretty)

/-- Observable events of one run of main, in order. -/
inductive Event where
  | negotiationStart : Event
  | negotiationDone (r : Except FetchError NegotiationPayload) : Event
  | healthStart : Event
  | healthDone (r : Except FetchError HealthPayload) : Event
  | reportDone : Event

/-- The event trace of main (src/desktop/src/main.rs lines 25-26): the two
block_on calls run strictly sequentially, after which the single
render-or-report step happens. -/
def mainTrace (negRes : Except FetchError NegotiationPayload)
    (healthRes : Except FetchError HealthPayload) : List Event :=
  [.negotiationStart, .negotiationDone negRes, .healthStart,
   .healthDone healthRes, .reportDone]

/-- The mock negotiation payload of spec section 8. -/
def specNegotiationPayload : NegotiationPayload :=
  { currency := "USD", revenue := 1000, expense := 400,
    target_margin := 3 / 10, floor_margin := 2 / 10, ceiling_margin := 4 / 10,
    target_discount := 1 / 10, floor_discount := 5 / 100, ceiling_discount := 15 / 100 }

/-- The mock health payload of spec section 8. -/
def specHealthPayload : HealthPayload :=
  { supabase_online := true, twilio_online := false, cached_notifications := 3,
    generated_at := "2024-01-01T00:00:00Z" }

/-- A JSON object deserializes to a NegotiationPayload exactly when every
required field occurs once and converts to its Rust type, with the record
fields equal to the converted values. -/
theorem deserializeNegotiation_eq_some_iff (entries : List (String × Json))
    (p : NegotiationPayload) :
    deserializeNegotiation (Json.obj entries) = some p ↔
      ((getField entries "currency").bind Json.asStr = some p.currency ∧
       (getField entries "revenue").bind Json.asF64 = some p.revenue ∧
       (getField entries "expense").bind Json.asF64 = some p.expense ∧
       (getField entries "target_margin").bind Json.asF64 = some p.target_margin ∧
       (getField entries "floor_margin").bind Json.asF64 = some p.floor_margin ∧
       (getField entries "ceiling_margin").bind Json.asF64 = some p.ceiling_margin ∧
       (getField entries "target_discount").bind Json.asF64 = some p.target_discount ∧
       (getField entries "floor_discount").bind Json.asF64 = some p.floor_discount ∧
       (getField entries "ceiling_discount").bind Json.asF64 = some p.ceiling_discount) := by
  simp only [deserializeNegotiation, Option.bind_eq_some, Option.some.injEq]
  constructor
  · rintro ⟨c, hc, r, hr, e, he, tm, htm, fm, hfm, cm, hcm, td, htd, fd, hfd, cd, hcd, hp⟩
    subst hp
    exact ⟨hc, hr, he, htm, hfm, hcm, htd, hfd, hcd⟩
  · rintro ⟨hc, hr, he, htm, hfm, hcm, htd, hfd, hcd⟩
    obtain ⟨c, r, e, tm, fm, cm, td, fd, cd⟩ := p
    exact ⟨c, hc, r, hr, e, he, tm, htm, fm, hfm, cm, hcm, td, htd, fd, hfd, cd, hcd, rfl⟩

/-- A JSON object deserializes to a HealthPayload exactly when every
required field occurs once and converts to its Rust type. -/
theorem deserializeHealth_eq_some_iff (entries : List (String × Json))
    (p : HealthPayload) :
    deserializeHealth (Json.obj entries) = some p ↔
      ((getField entries "supabase_online").bind Json.asBool = some p.supabase_online ∧
       (getField entries "twilio_online").bind Json.asBool = some p.twilio_online ∧
       (getField entries "cached_notifications").bind Json.asI64 = some p.cached_notifications ∧
       (getField entries "generated_at").bind Json.asStr = some p.generated_at) := by
  simp only [deserializeHealth, Option.bind_eq_some, Option.some.injEq]
  constructor
  · rintro ⟨s, hs, t, ht, c, hc, g, hg, hp⟩
    subst hp
    exact ⟨hs, ht, hc, hg⟩
  · rintro ⟨hs, ht, hc, hg⟩
    obtain ⟨s, t, c, g⟩ := p
    exact ⟨s, hs, t, ht, c, hc, g, hg, rfl⟩

/-- Appending entries whose keys differ from k does not change getField. -/
theorem getField_append_of_ne (entries extras : List (String × Json)) (k : String)
    (h : ∀ e ∈ extras, e.1 ≠ k) :
    getField (entries ++ extras) k = getField entries k := by
  unfold getField
  rw [List.filter_append]
  have hnil : extras.filter (fun e => e.1 == k) = [] := by
    rw [List.filter_eq_nil_iff]
    intro e he
    simpa using h e he
  rw [hnil, List.append_nil]

/-- Claim C1: constructing the default Config always succeeds; when the
environment variable NEGOTIATION_API_BASE holds a value V the base URL is
exactly V, and when it is unset the base URL is the hardcoded local
default. -/
theorem c1_config_default (env : String → Option String) :
    (∀ v, env "NEGOTIATION_API_BASE" = some v → (Config.default env).base_url = v) ∧
    (env "NEGOTIATION_API_BASE" = none →
      (Config.default env).base_url = "http://localhost:8000/api/v1") := by
  constructor
  · intro v hv
    simp [Config.default, hv]
  · intro hv
    simp [Config.default, hv]

/-- Witness for C1 at a set and an unset environment. -/
theorem c1_config_default_witness :
    (Config.default (fun _ => some "https://svc.example/api")).base_url =
        "https://svc.example/api" ∧
    (Config.default (fun _ => none)).base_url = "http://localhost:8000/api/v1" :=
  ⟨(c1_config_default (fun _ => some "https://svc.example/api")).1 _ rfl,
   (c1_config_default (fun _ => none)).2 rfl⟩

/-- Claim C2: deserialization is all-or-nothing. A JSON object decodes to a
payload record exactly when every required field is present once with a
value of the expected type (so the record is fully populated from the
document); and whenever the response body fails to decode, the fetch
operation returns a decode error rather than a partial result. -/
theorem c2_decode_all_or_nothing :
    (∀ entries p, deserializeNegotiation (Json.obj entries) = some p ↔
      ((getField entries "currency").bind Json.asStr = some p.currency ∧
       (getField entries "revenue").bind Json.asF64 = some p.revenue ∧
       (getField entries "expense").bind Json.asF64 = some p.expense ∧
       (getField entries "target_margin").bind Json.asF64 = some p.target_margin ∧
       (getField entries "floor_margin").bind Json.asF64 = some p.floor_margin ∧
       (getField entries "ceiling_margin").bind Json.asF64 = some p.ceiling_margin ∧
       (getField entries "target_discount").bind Json.asF64 = some p.target_discount ∧
       (getField entries "floor_discount").bind Json.asF64 = some p.floor_discount ∧
       (getField entries "ceiling_discount").bind Json.asF64 = some p.ceiling_discount)) ∧
    (∀ entries p, deserializeHealth (Json.obj entries) = some p ↔
      ((getField entries "supabase_online").bind Json.asBool = some p.supabase_online ∧
       (getField entries "twilio_online").bind Json.asBool = some p.twilio_online ∧
       (getField entries "cached_notifications").bind Json.asI64 = some p.cached_notifications ∧
       (getField entries "generated_at").bind Json.asStr = some p.generated_at)) ∧
    (∀ config net j, net (negotiationRequest config) = Except.ok j →
      deserializeNegotiation j = none →
      (NegotiationClient.negotiation config net).2 = Except.error FetchError.decode) ∧
    (∀ config net j, net (healthRequest config) = Except.ok j →
      deserializeHealth j = none →
      (NegotiationClient.health config net).2 = Except.error FetchError.decode) := by
  refine ⟨deserializeNegotiation_eq_some_iff, deserializeHealth_eq_some_iff, ?_, ?_⟩
  · intro config net j h1 h2
    simp [NegotiationClient.negotiation, h1, h2]
  · intro config net j h1 h2
    simp [NegotiationClient.health, h1, h2]

/-- Witness for C2: a response body missing every required field makes the
negotiation fetch return a decode error. -/
theorem c2_decode_all_or_nothing_witness :
    (NegotiationClient.negotiation ⟨"http://localhost:8000/api/v1"⟩
      (fun _ => Except.ok (Json.obj []))).2 = Except.error FetchError.decode :=
  c2_decode_all_or_nothing.2.2.1 ⟨"http://localhost:8000/api/v1"⟩
    (fun _ => Except.ok (Json.obj [])) (Json.obj []) rfl rfl

/-- Claim C3: whenever at least one fetch fails, nothing is written to
standard output, and standard error gets the bolded failure banner followed
by the negotiation error text on its own line if negotiation failed and the
health error text on its own line if health failed, each reported
independently. -/
theorem c3_failure_reporting (config : Config) (pretty : Bool)
    (negRes : Except FetchError NegotiationPayload)
    (healthRes : Except FetchError HealthPayload)
    (hfail : negRes.isOk = false ∨ healthRes.isOk = false) :
    (mainOutput config negRes healthRes pretty).1 = [] ∧
    (∀ e e2, negRes = Except.error e → healthRes = Except.error e2 →
      (mainOutput config negRes healthRes pretty).2 =
        [failureBanner, "Negotiation error: " ++ e.text, "Health error: " ++ e2.text]) ∧
    (∀ e h, negRes = Except.error e → healthRes = Except.ok h →
      (mainOutput config negRes healthRes pretty).2 =
        [failureBanner, "Negotiation error: " ++ e.text]) ∧
    (∀ p e2, negRes = Except.ok p → healthRes = Except.error e2 →
      (mainOutput config negRes healthRes pretty).2 =
        [failureBanner, "Health error: " ++ e2.text]) := by
  cases negRes with
  | error e =>
      cases healthRes with
      | error e2 =>
          refine ⟨rfl, ?_, ?_, ?_⟩ <;> intro a b ha hb <;> cases ha <;> cases hb <;> rfl
      | ok h =>
          refine ⟨rfl, ?_, ?_, ?_⟩ <;> intro a b ha hb <;> cases ha <;> cases hb <;> rfl
  | ok p =>
      cases healthRes with
      | error e2 =>
          refine ⟨rfl, ?_, ?_, ?_⟩ <;> intro a b ha hb <;> cases ha <;> cases hb <;> rfl
      | ok h => simp [Except.isOk, Except.toBool] at hfail

/-- Witness for C3: negotiation unreachable while health succeeds yields no
standard output and exactly the banner plus the negotiation error line. -/
theorem c3_failure_reporting_witness :
    (mainOutput ⟨"http://localhost:8000/api/v1"⟩
        (Except.error (FetchError.network "connection refused"))
        (Except.ok specHealthPayload) true).1 = [] ∧
    (mainOutput ⟨"http://localhost:8000/api/v1"⟩
        (Except.error (FetchError.network "connection refused"))
        (Except.ok specHealthPayload) true).2 =
      [failureBanner, "Negotiation error: connection refused"] := by
  have h := c3_failure_reporting ⟨"http://localhost:8000/api/v1"⟩ true
    (Except.error (FetchError.network "connection refused"))
    (Except.ok specHealthPayload) (Or.inl rfl)
  exact ⟨h.1, h.2.2.1 _ _ rfl rfl⟩

/-- Claim C4: the dashboard prints revenue and expense with exactly two
decimals and each margin and discount figure multiplied by 100 with two
decimals in the fixed layouts; on the spec example payload the four lines
are exactly the strings the spec requires. -/
theorem c4_numeric_rendering :
    (∀ (config : Config) (envelope : NegotiationPayload) (health : HealthPayload)
        (pretty : Bool),
      (renderDashboard config envelope health pretty).get? 3 =
          some ("Revenue: " ++ fmt2 envelope.revenue) ∧
      (renderDashboard config envelope health pretty).get? 4 =
          some ("Expense: " ++ fmt2 envelope.expense) ∧
      (renderDashboard config envelope health pretty).get? 5 =
          some ("Target Margin: " ++ fmt2 (envelope.target_margin * 100) ++ "% (Floor " ++
            fmt2 (envelope.floor_margin * 100) ++ "% / Ceiling " ++
            fmt2 (envelope.ceiling_margin * 100) ++ "%)") ∧
      (renderDashboard config envelope health pretty).get? 6 =
          some ("Discounts - Target " ++ fmt2 (envelope.target_discount * 100) ++
            "% / Floor " ++ fmt2 (envelope.floor_discount * 100) ++ "% / Ceiling " ++
            fmt2 (envelope.ceiling_discount * 100) ++ "%")) ∧
    ((renderDashboard ⟨"http://localhost:8000/api/v1"⟩ specNegotiationPayload
        specHealthPayload true).get? 3 = some "Revenue: 1000.00" ∧
     (renderDashboard ⟨"http://localhost:8000/api/v1"⟩ specNegotiationPayload
        specHealthPayload true).get? 4 = some "Expense: 400.00" ∧
     (renderDashboard ⟨"http://localhost:8000/api/v1"⟩ specNegotiationPayload
        specHealthPayload true).get? 5 =
          some "Target Margin: 30.00% (Floor 20.00% / Ceiling 40.00%)" ∧
     (renderDashboard ⟨"http://localhost:8000/api/v1"⟩ specNegotiationPayload
        specHealthPayload true).get? 6 =
          some "Discounts - Target 10.00% / Floor 5.00% / Ceiling 15.00%") := by
  constructor
  · intro config envelope health pretty
    exact ⟨rfl, rfl, rfl, rfl⟩
  · have h1 : specNegotiationPayload.revenue = 1000 := by norm_num [specNegotiationPayload]
    have h2 : specNegotiationPayload.expense = 400 := by norm_num [specNegotiationPayload]
    have h3 : specNegotiationPayload.target_margin * 100 = 30 := by
      norm_num [specNegotiationPayload]
    have h4 : specNegotiationPayload.floor_margin * 100 = 20 := by
      norm_num [specNegotiationPayload]
    have h5 : specNegotiationPayload.ceiling_margin * 100 = 40 := by
      norm_num [specNegotiationPayload]
    have h6 : specNegotiationPayload.target_discount * 100 = 10 := by
      norm_num [specNegotiationPayload]
    have h7 : specNegotiationPayload.floor_discount * 100 = 5 := by
      norm_num [specNegotiationPayload]
    have h8 : specNegotiationPayload.ceiling_discount * 100 = 15 := by
      norm_num [specNegotiationPayload]
    refine ⟨?_, ?_, ?_, ?_⟩ <;> simp [renderDashboard, h1, h2, h3, h4, h5, h6, h7, h8] <;> decide

/-- Whether a string carries any ANSI styling (the escape character). -/
def hasStyling (s : String) : Bool :=
  s.data.any (fun c => c == '\x1b')

/-- Claim C5: in pretty mode the health block renders each boolean flag as
a green bold ONLINE token when true and a yellow bold DEGRADED token when
false, with the raw cached-notification count and the unmodified timestamp;
in plain mode the same data appears as literal key=value pairs without any
styling codes. -/
theorem c5_health_block :
    (∀ (config : Config) (envelope : NegotiationPayload) (health : HealthPayload),
      (renderDashboard config envelope health true).get? 7 =
          some ("Health: Supabase " ++ status_badge health.supabase_online ++
            " | Twilio " ++ status_badge health.twilio_online ++
            " | Cached Notifications " ++ toString health.cached_notifications) ∧
      (renderDashboard config envelope health true).get? 8 =
          some ("Last Sync: " ++ health.generated_at) ∧
      (renderDashboard config envelope health false).get? 7 =
          some ("Health: supabase_online=" ++ toString health.supabase_online ++
            " twilio_online=" ++ toString health.twilio_online ++
            " cached_notifications=" ++ toString health.cached_notifications) ∧
      (renderDashboard config envelope health false).get? 8 =
          some ("last_sync=" ++ health.generated_at)) ∧
    status_badge true = ansi "1;32" "ONLINE" ∧
    status_badge false = ansi "1;33" "DEGRADED" ∧
    ((renderDashboard ⟨"http://localhost:8000/api/v1"⟩ specNegotiationPayload
        specHealthPayload false).get? 7 =
          some "Health: supabase_online=true twilio_online=false cached_notifications=3" ∧
     (renderDashboard ⟨"http://localhost:8000/api/v1"⟩ specNegotiationPayload
        specHealthPayload false).get? 8 = some "last_sync=2024-01-01T00:00:00Z" ∧
     hasStyling "Health: supabase_online=true twilio_online=false cached_notifications=3" =
        false ∧
     hasStyling "last_sync=2024-01-01T00:00:00Z" = false) := by
  refine ⟨?_, rfl, rfl, ?_, ?_, ?_, ?_⟩
  · intro config envelope health
    exact ⟨rfl, rfl, rfl, rfl⟩
  · decide
  · decide
  · decide
  · decide

/-- Claim C6: each fetch issues exactly one GET request to the configured
base URL with the fixed sub-path appended, carrying no headers, no body and
no auth token, and deserializes the response body into its payload type. -/
theorem c6_request_shape (config : Config) (net : Network) :
    (NegotiationClient.negotiation config net).1 =
        [{ method := "GET", url := config.base_url ++ "/negotiation",
           headers := [], body := none, auth := none }] ∧
    (NegotiationClient.health config net).1 =
        [{ method := "GET", url := config.base_url ++ "/health",
           headers := [], body := none, auth := none }] ∧
    (∀ j, net (negotiationRequest config) = Except.ok j →
      (NegotiationClient.negotiation config net).2 =
        (match deserializeNegotiation j with
         | some p => Except.ok p
         | none => Except.error FetchError.decode)) ∧
    (∀ j, net (healthRequest config) = Except.ok j →
      (NegotiationClient.health config net).2 =
        (match deserializeHealth j with
         | some p => Except.ok p
         | none => Except.error FetchError.decode)) := by
  refine ⟨rfl, rfl, ?_, ?_⟩
  · intro j h
    simp [NegotiationClient.negotiation, h]
  · intro j h
    simp [NegotiationClient.health, h]

/-- Witness for C6: with a network answering a null body, the single
negotiation request decodes to a decode error as the theorem states. -/
theorem c6_request_shape_witness :
    (NegotiationClient.negotiation ⟨"http://localhost:8000/api/v1"⟩
        (fun _ => Except.ok Json.null)).2 = Except.error FetchError.decode :=
  (c6_request_shape ⟨"http://localhost:8000/api/v1"⟩
    (fun _ => Except.ok Json.null)).2.2.1 Json.null rfl

/-- Claim C7: every run reaching the fetch phase returns the success exit
result whatever the fetch outcomes; only a runtime construction failure
before the fetches propagates as the process error result. -/
theorem c7_exit_status (runtimeRes : Except String Unit) (config : Config)
    (negRes : Except FetchError NegotiationPayload)
    (healthRes : Except FetchError HealthPayload) (pretty : Bool) :
    (runtimeRes = Except.ok () →
      mainProcess runtimeRes config negRes healthRes pretty =
        Except.ok (mainOutput config negRes healthRes pretty)) ∧
    (∀ e, runtimeRes = Except.error e →
      mainProcess runtimeRes config negRes healthRes pretty = Except.error e) := by
  constructor
  · intro h
    subst h
    rfl
  · intro e h
    subst h
    rfl

/-- Witness for C7: with a successful runtime and both fetches failed, the
process result is still success. -/
theorem c7_exit_status_witness :
    mainProcess (Except.ok ()) ⟨"http://localhost:8000/api/v1"⟩
        (Except.error FetchError.decode) (Except.error (FetchError.network "refused")) true =
      Except.ok (mainOutput ⟨"http://localhost:8000/api/v1"⟩
        (Except.error FetchError.decode) (Except.error (FetchError.network "refused")) true) :=
  (c7_exit_status (Except.ok ()) ⟨"http://localhost:8000/api/v1"⟩
    (Except.error FetchError.decode) (Except.error (FetchError.network "refused")) true).1 rfl

/-- Claim C8: in the event trace of a run, the completion of the
negotiation fetch strictly precedes the start of the health fetch, the
health fetch completes before the render-or-report step, and the
negotiation result is also available before that step. -/
theorem c8_sequential_fetches (negRes : Except FetchError NegotiationPayload)
    (healthRes : Except FetchError HealthPayload) (i j k l : Nat)
    (hi : (mainTrace negRes healthRes).get? i = some (Event.negotiationDone negRes))
    (hj : (mainTrace negRes healthRes).get? j = some Event.healthStart)
    (hk : (mainTrace negRes healthRes).get? k = some (Event.healthDone healthRes))
    (hl : (mainTrace negRes healthRes).get? l = some Event.reportDone) :
    i < j ∧ j < k ∧ k < l := by
  have hi1 : i = 1 := by
    rcases i with _ | _ | _ | _ | _ | m <;> simp [mainTrace] at hi <;> rfl
  have hj1 : j = 2 := by
    rcases j with _ | _ | _ | _ | _ | m <;> simp [mainTrace] at hj <;> rfl
  have hk1 : k = 3 := by
    rcases k with _ | _ | _ | _ | _ | m <;> simp [mainTrace] at hk <;> rfl
  have hl1 : l = 4 := by
    rcases l with _ | _ | _ | _ | _ | m <;> simp [mainTrace] at hl <;> rfl
  subst hi1 hj1 hk1 hl1
  exact ⟨by omega, by omega, by omega⟩

/-- Witness for C8 at concrete fetch results and the positions where the
events occur in the trace. -/
theorem c8_sequential_fetches_witness : (1 : Nat) < 2 ∧ (2 : Nat) < 3 ∧ (3 : Nat) < 4 :=
  c8_sequential_fetches (Except.ok specNegotiationPayload)
    (Except.error (FetchError.network "refused")) 1 2 3 4 rfl rfl rfl rfl

/-- Claim C9: deserialization ignores unknown fields. Extending a JSON
object that already decodes to a payload with extra entries whose keys are
not required field names leaves the decode result unchanged, for both
payload types. -/
theorem c9_unknown_fields_ignored :
    (∀ (entries extras : List (String × Json)) (p : NegotiationPayload),
      (∀ e ∈ extras, e.1 ∉ negotiationFieldNames) →
      deserializeNegotiation (Json.obj entries) = some p →
      deserializeNegotiation (Json.obj (entries ++ extras)) = some p) ∧
    (∀ (entries extras : List (String × Json)) (p : HealthPayload),
      (∀ e ∈ extras, e.1 ∉ healthFieldNames) →
      deserializeHealth (Json.obj entries) = some p →
      deserializeHealth (Json.obj (entries ++ extras)) = some p) := by
  constructor
  · intro entries extras p hext h
    rw [deserializeNegotiation_eq_some_iff] at h ⊢
    have hk : ∀ k ∈ negotiationFieldNames,
        getField (entries ++ extras) k = getField entries k := by
      intro k hkmem
      refine getField_append_of_ne entries extras k ?_
      intro e he heq
      exact hext e he (heq ▸ hkmem)
    rw [hk "currency" (by simp [negotiationFieldNames]),
        hk "revenue" (by simp [negotiationFieldNames]),
        hk "expense" (by simp [negotiationFieldNames]),
        hk "target_margin" (by simp [negotiationFieldNames]),
        hk "floor_margin" (by simp [negotiationFieldNames]),
        hk "ceiling_margin" (by simp [negotiationFieldNames]),
        hk "target_discount" (by simp [negotiationFieldNames]),
        hk "floor_discount" (by simp [negotiationFieldNames]),
        hk "ceiling_discount" (by simp [negotiationFieldNames])]
    exact h
  · intro entries extras p hext h
    rw [deserializeHealth_eq_some_iff] at h ⊢
    have hk : ∀ k ∈ healthFieldNames,
        getField (entries ++ extras) k = getField entries k := by
      intro k hkmem
      refine getField_append_of_ne entries extras k ?_
      intro e he heq
      exact hext e he (heq ▸ hkmem)
    rw [hk "supabase_online" (by simp [healthFieldNames]),
        hk "twilio_online" (by simp [healthFieldNames]),
        hk "cached_notifications" (by simp [healthFieldNames]),
        hk "generated_at" (by simp [healthFieldNames])]
    exact h

/-- Witness for C9: the spec health document extended with an unrecognized
field still decodes to the same payload. -/
theorem c9_unknown_fields_ignored_witness :
    deserializeHealth (Json.obj
        ([("supabase_online", Json.bool true), ("twilio_online", Json.bool false),
          ("cached_notifications", Json.num 3),
          ("generated_at", Json.str "2024-01-01T00:00:00Z")] ++
         [("build_sha", Json.str "abc123"), ("uptime_seconds", Json.num 42)])) =
      some specHealthPayload :=
  c9_unknown_fields_ignored.2
    [("supabase_online", Json.bool true), ("twilio_online", Json.bool false),
     ("cached_notifications", Json.num 3),
     ("generated_at", Json.str "2024-01-01T00:00:00Z")]
    [("build_sha", Json.str "abc123"), ("uptime_seconds", Json.num 42)]
    specHealthPayload (by decide) (by decide)

/-- Claim C10: cached_notifications is a signed 64-bit integer; any integer
in the i64 range, negative values included, deserializes successfully and
is rendered verbatim in both the pretty and the plain health line. -/
theorem c10_cached_notifications_i64 :
    (∀ (b1 b2 : Bool) (n : Int) (ts : String),
      -(2 ^ 63) ≤ n → n < 2 ^ 63 →
      deserializeHealth (Json.obj
          [("supabase_online", Json.bool b1), ("twilio_online", Json.bool b2),
           ("cached_notifications", Json.num (n : ℚ)), ("generated_at", Json.str ts)]) =
        some ⟨b1, b2, n, ts⟩) ∧
    (∀ (config : Config) (envelope : NegotiationPayload) (health : HealthPayload),
      (renderDashboard config envelope health true).get? 7 =
          some ("Health: Supabase " ++ status_badge health.supabase_online ++
            " | Twilio " ++ status_badge health.twilio_online ++
            " | Cached Notifications " ++ toString health.cached_notifications) ∧
      (renderDashboard config envelope health false).get? 7 =
          some ("Health: supabase_online=" ++ toString health.supabase_online ++
            " twilio_online=" ++ toString health.twilio_online ++
            " cached_notifications=" ++ toString health.cached_notifications)) := by
  constructor
  · intro b1 b2 n ts hlo hhi
    have hcond : ((n : ℚ).den = 1 ∧ -(2 ^ 63) ≤ (n : ℚ).num ∧ (n : ℚ).num < 2 ^ 63) := by
      refine ⟨Rat.den_intCast n, ?_, ?_⟩
      · rw [Rat.num_intCast]; exact hlo
      · rw [Rat.num_intCast]; exact hhi
    rw [deserializeHealth_eq_some_iff]
    refine ⟨rfl, rfl, ?_, rfl⟩
    have hg : getField
        [("supabase_online", Json.bool b1), ("twilio_online", Json.bool b2),
         ("cached_notifications", Json.num (n : ℚ)), ("generated_at", Json.str ts)]
        "cached_notifications" = some (Json.num (n : ℚ)) := rfl
    rw [hg]
    show Json.asI64 (Json.num (n : ℚ)) = some n
    simp only [Json.asI64]
    rw [if_pos hcond, Rat.num_intCast]
  · intro config envelope health
    exact ⟨rfl, rfl⟩

/-- Witness for C10: a negative count deserializes and is kept as is. -/
theorem c10_cached_notifications_i64_witness :
    deserializeHealth (Json.obj
        [("supabase_online", Json.bool true), ("twilio_online", Json.bool false),
         ("cached_notifications", Json.num ((-5 : Int) : ℚ)),
         ("generated_at", Json.str "2024-01-01T00:00:00Z")]) =
      some ⟨true, false, -5, "2024-01-01T00:00:00Z"⟩ :=
  c10_cached_notifications_i64.1 true false (-5) "2024-01-01T00:00:00Z"
    (by norm_num) (by norm_num)
